import Mathlib

/-!
Verification of the hybrid retrieval-and-grounding engine of a personal
learning-portfolio platform. The Python source is embedded shallowly:
strings become `List Char`, Django query sets become Lean lists, float
scores become rationals, and the external providers (Cohere embeddings,
Groq completions, the safety validator, pgvector distance) are abstract
parameters of the embedded request handlers.

Sections:
  1. Python string primitives (`strip`, `lower`, `in`, `split`, `join`).
  2. `chunk_text` from `portfolio/management/commands/build_knowledge_index.py`
     (a fueled loop, since the Python `while` loop need not terminate).
  3. `smart_retrieve` from `portfolio/utils/utils.py`.
  4. The `AIChatView.post` control flow from `portfolio/views.py`.
  5. The automation ingest pipeline from `automation/tasks.py`.
  6. Theorems about the claims, with witnesses and counterexamples.
-/

namespace Portfolio

/-! ### 1. Python string primitives over `List Char` -/

/-- Python `str.strip()` (leading and trailing whitespace removed). -/
def pyStrip (s : List Char) : List Char :=
  ((s.dropWhile Char.isWhitespace).reverse.dropWhile Char.isWhitespace).reverse

/-- Python `str.lower()` (ASCII case folding, all source texts are ASCII). -/
def pyLower (s : List Char) : List Char :=
  s.map Char.toLower

/-- Python `needle in hay` substring test. -/
def pyIn (needle : List Char) : List Char → Bool
  | [] => needle.isEmpty
  | c :: rest => needle.isPrefixOf (c :: rest) || pyIn needle rest

/-- Python `str.split()` (split on whitespace runs, dropping empty parts). -/
def pySplit (s : List Char) : List (List Char) :=
  (s.splitOnP Char.isWhitespace).filter (fun p => p ≠ [])

/-- Python `sep.join(parts)`. -/
def pyJoin (sep : List Char) (parts : List (List Char)) : List Char :=
  List.intercalate sep parts

/-- Generic insertion into a list sorted by `le` (used to model Python `sorted`). -/
def insertLe (le : α → α → Bool) (a : α) : List α → List α
  | [] => [a]
  | b :: bs => if le a b then a :: b :: bs else b :: insertLe le a bs

/-- Insertion sort by `le` (used to model Python `sorted` / `list.sort`). -/
def sortLe (le : α → α → Bool) : List α → List α
  | [] => []
  | a :: as => insertLe le a (sortLe le as)

theorem length_insertLe (le : α → α → Bool) (a : α) (l : List α) :
    (insertLe le a l).length = l.length + 1 := by
  induction l with
  | nil => rfl
  | cons b bs ih =>
      simp only [insertLe]
      by_cases h : le a b = true
      · simp [h]
      · simp [h, ih]

theorem length_sortLe (le : α → α → Bool) (l : List α) :
    (sortLe le l).length = l.length := by
  induction l with
  | nil => rfl
  | cons a as ih => simp [sortLe, length_insertLe, ih]

/-- Decimal rendering of a natural number (Python f-string interpolation). -/
def natStr (n : Nat) : List Char :=
  (Nat.repr n).toList

/-! ### 2. The chunker

`chunk_text` in `build_knowledge_index.py`:

```python
def chunk_text(text, max_chars=1200, overlap=200):
    text = (text or "").strip()
    if not text: return []
    if len(text) <= max_chars: return [text]
    chunks = []; start = 0; length = len(text)
    overlap = min(overlap, max_chars // 2)
    while start < length:
        end = min(length, start + max_chars)
        chunk = text[start:end].strip()
        if chunk: chunks.append(chunk)
        if end == length: break
        start = end - overlap
    return chunks
```

The `while` loop is embedded with explicit fuel: `none` means the fuel ran
out before the loop finished.  All the integer arguments are naturals, as at
every call site in the source. -/

/-- The window `text[start:end]` for `start ≤ end`. -/
def pySlice (text : List Char) (start stop : Nat) : List Char :=
  (text.drop start).take (stop - start)

/-- The `while start < length` loop of `chunk_text`, with fuel.
`ovc` is the already-clamped overlap. -/
def chunkLoop (text : List Char) (maxChars ovc : Nat) :
    Nat → Nat → List (List Char) → Option (List (List Char))
  | 0, _, _ => none
  | fuel + 1, start, acc =>
    if start < text.length then
      let stop := min text.length (start + maxChars)
      let c := pyStrip (pySlice text start stop)
      let acc2 := if c = [] then acc else acc ++ [c]
      if stop = text.length then some acc2
      else chunkLoop text maxChars ovc fuel (stop - ovc) acc2
    else some acc

/-- The function `chunk_text(text, max_chars, overlap)`, with fuel for the sliding loop. -/
def chunkText (fuel : Nat) (text : List Char) (maxChars overlap : Nat) :
    Option (List (List Char)) :=
  let t := pyStrip text
  if t = [] then some []
  else if t.length ≤ maxChars then some [t]
  else chunkLoop t maxChars (min overlap (maxChars / 2)) fuel 0 []

/-! ### 3. `smart_retrieve` (`portfolio/utils/utils.py`)

The `KnowledgeChunk` table is a list; `CosineDistance(F("vector"), query_vector)`
is an abstract metric `cosineDistance` supplied by the caller (pgvector is an
external collaborator); float scores are rationals.  A diagnostics field whose
key is absent from the Python dict on some path is an `Option` that is `none`
on that path. -/

inductive SourceType
  | learning_entry
  | roadmap_item
  | site_content
  | document
deriving DecidableEq, Repr

structure KnowledgeChunk where
  id : Nat
  source_type : SourceType
  source_id : Option Nat
  title : List Char
  content : List Char
  section_title : List Char
  item_title : List Char
  tags : List Char
  vector : List ℚ
deriving DecidableEq, Repr

inductive RetStatus
  | no_results
  | very_low_confidence
  | low_confidence
  | ok
deriving DecidableEq, Repr

structure RetrievalFilters where
  source_types : List SourceType
  document_id : Option Nat
deriving DecidableEq, Repr

/-- The `debug` dict returned by `smart_retrieve`.  `reason`, `max_score`,
`avg_score`, `total_available` and `returned` are keys that exist only on
some paths, hence `Option`; `candidate_k` is always a key but its value can
be Python `None` (the argument before the default is computed). -/
structure RetrievalDebug where
  status : RetStatus
  reason : Option (List Char)
  scores : List ℚ
  max_score : Option ℚ
  avg_score : Option ℚ
  top_k : Nat
  candidate_k : Option Nat
  total_available : Option Nat
  returned : Option Nat
  filters : RetrievalFilters
deriving DecidableEq, Repr

/-- The two optional filters of `smart_retrieve`.  Python applies
`if source_types:` (so `None` and `[]` both skip the filter, modelled as the
empty list) and then `document_id is not None`. -/
def applyFilters (store : List KnowledgeChunk) (sourceTypes : List SourceType)
    (documentId : Option Nat) : List KnowledgeChunk :=
  let qs1 := if sourceTypes = [] then store
    else store.filter (fun ch => decide (ch.source_type ∈ sourceTypes))
  match documentId with
  | none => qs1
  | some d => qs1.filter (fun ch =>
      decide (ch.source_type = SourceType.document ∧ ch.source_id = some d))

/-- Python `max(scores)` (callers guard non-emptiness; `0` on `[]` mirrors
the `if scores else 0.0` in the source). -/
def pyMax (scores : List ℚ) : ℚ :=
  match scores with
  | [] => 0
  | s :: rest => rest.foldl max s

/-- Python `sum(scores) / len(scores) if scores else 0.0`. -/
def pyAvg (scores : List ℚ) : ℚ :=
  match scores with
  | [] => 0
  | _ :: _ => scores.sum / scores.length

/-- The function `smart_retrieve(query_vector, top_k, candidate_k, source_types, document_id)`.
Returns `(chunks, debug)`. -/
def smartRetrieve (store : List KnowledgeChunk)
    (cosineDistance : List ℚ → List ℚ → ℚ) (queryVector : List ℚ)
    (topK : Nat) (candidateK : Option Nat)
    (sourceTypes : List SourceType) (documentId : Option Nat) :
    List KnowledgeChunk × RetrievalDebug :=
  let qs := applyFilters store sourceTypes documentId
  let totalAvailable := qs.length
  let filters : RetrievalFilters := ⟨sourceTypes, documentId⟩
  if totalAvailable = 0 then
    ([], { status := .no_results, reason := some "no_rows_after_filters".toList,
           scores := [], max_score := none, avg_score := none, top_k := topK,
           candidate_k := candidateK, total_available := none, returned := none,
           filters := filters })
  else
    let ck0 := match candidateK with
      | none => max topK 16
      | some k => k
    let ck := min ck0 totalAvailable
    let rawQs := (sortLe (fun a b =>
      decide (cosineDistance a.vector queryVector ≤ cosineDistance b.vector queryVector)) qs).take ck
    if rawQs = [] then
      ([], { status := .no_results, reason := some "annotate_order_empty".toList,
             scores := [], max_score := none, avg_score := none, top_k := topK,
             candidate_k := some ck, total_available := none, returned := none,
             filters := filters })
    else
      let scored := rawQs.map (fun ch => (ch, 1 - cosineDistance ch.vector queryVector))
      let scoredSorted := sortLe (fun a b => decide (b.2 ≤ a.2)) scored
      let top := scoredSorted.take topK
      let chunks := top.map Prod.fst
      let scores := top.map Prod.snd
      let maxScore := pyMax scores
      let avgScore := pyAvg scores
      let st : RetStatus :=
        if scores = [] then .no_results
        else if maxScore < 1/5 then .very_low_confidence
        else if maxScore < 2/5 then .low_confidence
        else .ok
      (chunks, { status := st, reason := none, scores := scores,
                 max_score := some maxScore, avg_score := some avgScore,
                 top_k := topK, candidate_k := some ck,
                 total_available := some totalAvailable,
                 returned := some chunks.length, filters := filters })

/-! ### 4. `AIChatView.post` (`portfolio/views.py`)

External collaborators become an environment record: the guardrail HTTP call,
the Cohere embedding call, the pgvector search, and the two Groq completion
calls each have an abstract outcome.  The handler records every provider
call it makes, in order, so that claims about "no provider calls" are
statements about the model.  Prompt strings (system/user messages) are not
modelled: no claim mentions their content, only which calls happen and what
the response fields are. -/

inductive ProviderCall
  | safetyValidate
  | cohereEmbed
  | groqCompletion
  | groqFollowUp
deriving DecidableEq, Repr

/-- The `retrieval_debug` field of the chat response: either the dict from
`smart_retrieve` or one of the literal one-key dicts in the view. -/
inductive ChatDebug
  | retrieval (d : RetrievalDebug)
  | blocked
  | rateLimitFallback
  | dbErrorFallback
deriving DecidableEq, Repr

/-- The expression `debug.get("max_score")` on the chat response path. -/
def chatDebugMaxScore : ChatDebug → Option ℚ
  | .retrieval d => d.max_score
  | _ => none

structure ChatEnv where
  store : List KnowledgeChunk
  cosineDistance : List ℚ → List ℚ → ℚ
  /-- When `none`, the guardrail request raised or returned non-200 (fail-open). -/
  safetyResp : Option (Bool × List Char)
  cohereKeySet : Bool
  groqKeySet : Bool
  /-- When `none`, the Cohere embed call raised (rate limit etc.). -/
  embedResult : Option (List ℚ)
  /-- When `true`, `smart_retrieve` raised (pgvector unavailable). -/
  vectorSearchRaises : Bool
  /-- When `none`, the Groq call for the main answer raised. -/
  completionResult : Option (List Char)
  /-- When `none`, the Groq call for follow-up questions raised. -/
  followUpResult : Option (List Char)

structure ChatResponse where
  httpStatus : Nat
  errorMsg : Option (List Char)
  answer : Option (List Char)
  contextUsed : List KnowledgeChunk
  confidence : Option ℚ
  retrievalDebug : Option ChatDebug
  followUpQuestions : List (List Char)
  /-- The view's local `low_conf` flag (drives hedging and follow-up generation). -/
  lowConf : Bool
  /-- Provider calls made while handling the request, in order. -/
  calls : List ProviderCall

/-- The three generic clarifying questions used when no context exists. -/
def genericFollowUps : List (List Char) :=
  [ "What specific information about Henri are you looking for?".toList,
    "Tell me more about what aspect of this topic interests you".toList,
    "What would you like to know about Henri's work or experience?".toList ]

/-- The characters stripped from the front of generated questions
(`q.lstrip('0123456789.-*• ')`). -/
def enumMarkChars : List Char :=
  "0123456789.-*• ".toList

/-- Python `q.lstrip(chars)`. -/
def pyLstripSet (chars s : List Char) : List Char :=
  s.dropWhile (fun c => chars.contains c)

/-- Python `list.split(sep)` for a single-character separator. -/
def pySplitOn (sep : Char) (s : List Char) : List (List Char) :=
  s.splitOnP (fun c => c = sep)

/-- Parsing of the Groq follow-up response: split lines, strip, drop empties,
strip enumeration markers, keep questions longer than 10 characters, take 3. -/
def parseFollowUps (raw : List Char) : List (List Char) :=
  let questions := ((pySplitOn '\n' (pyStrip raw)).map pyStrip).filter (fun q => q ≠ [])
  let cleaned := (questions.map (pyLstripSet enumMarkChars)).filter
    (fun q => q ≠ [] ∧ q.length > 10)
  cleaned.take 3

/-- The deduplicated topic labels collected from the top 3 context blocks. -/
def uniqueTopics (blocks : List KnowledgeChunk) : List (List Char) :=
  let topics := (blocks.take 3).flatMap
    (fun b => [b.title, b.section_title, b.item_title])
  (topics.filter (fun t => t ≠ [])).eraseDups

/-- The fallback questions when follow-up generation raises. -/
def fallbackFollowUps (topics : List (List Char)) : List (List Char) :=
  [ "What specifically about ".toList ++ (topics.headD "this topic".toList) ++
      " would you like to know?".toList,
    "Tell me more about the implementation details".toList,
    "What other aspects of Henri's work interest you?".toList ]

/-- The helper `AIChatView._generate_follow_up_questions`.  Returns the questions and
whether a Groq call was made. -/
def generateFollowUpQuestions (env : ChatEnv) (blocks : List KnowledgeChunk) :
    List (List Char) × Bool :=
  if blocks = [] then (genericFollowUps, false)
  else
    match env.followUpResult with
    | some raw => (parseFollowUps raw, true)
    | none => (fallbackFollowUps (uniqueTopics blocks), true)

/-- The final segment of the handler: the main Groq completion, optional
follow-up generation, and the 200 response. -/
def chatFinish (env : ChatEnv) (chunks : List KnowledgeChunk) (debug : ChatDebug)
    (lowConf : Bool) (calls : List ProviderCall) : ChatResponse :=
  let calls2 := calls ++ [ProviderCall.groqCompletion]
  match env.completionResult with
  | none =>
      { httpStatus := 500, errorMsg := some "Failed to get answer from Groq".toList,
        answer := none, contextUsed := [], confidence := none, retrievalDebug := none,
        followUpQuestions := [], lowConf := lowConf, calls := calls2 }
  | some ans =>
      let fu := if lowConf then generateFollowUpQuestions env chunks else ([], false)
      let calls3 := calls2 ++ (if fu.2 then [ProviderCall.groqFollowUp] else [])
      { httpStatus := 200, errorMsg := none, answer := some ans,
        contextUsed := chunks, confidence := chatDebugMaxScore debug,
        retrievalDebug := some debug, followUpQuestions := fu.1,
        lowConf := lowConf, calls := calls3 }

/-- The handler `AIChatView.post(request)` with `question` the request body field. -/
def aiChatPost (env : ChatEnv) (question : List Char) : ChatResponse :=
  let q := pyStrip question
  if q = [] then
    { httpStatus := 400, errorMsg := some "Missing question field".toList,
      answer := none, contextUsed := [], confidence := none, retrievalDebug := none,
      followUpQuestions := [], lowConf := false, calls := [] }
  else
    let calls0 := [ProviderCall.safetyValidate]
    match env.safetyResp with
    | some (false, reason) =>
        { httpStatus := 200, errorMsg := none,
          answer := some ("SECURITY ALERT: Request blocked. ".toList ++ reason),
          contextUsed := [], confidence := some 0,
          retrievalDebug := some ChatDebug.blocked, followUpQuestions := [],
          lowConf := false, calls := calls0 }
    | _ =>
      if env.cohereKeySet = false then
        { httpStatus := 500, errorMsg := some "Cohere API key not configured".toList,
          answer := none, contextUsed := [], confidence := none, retrievalDebug := none,
          followUpQuestions := [], lowConf := false, calls := calls0 }
      else if env.groqKeySet = false then
        { httpStatus := 500, errorMsg := some "Groq API key not configured".toList,
          answer := none, contextUsed := [], confidence := none, retrievalDebug := none,
          followUpQuestions := [], lowConf := false, calls := calls0 }
      else
        let calls1 := calls0 ++ [ProviderCall.cohereEmbed]
        match env.embedResult with
        | none =>
            chatFinish env [] ChatDebug.rateLimitFallback true calls1
        | some queryVector =>
          if env.vectorSearchRaises then
            chatFinish env [] ChatDebug.dbErrorFallback true calls1
          else
            let r := smartRetrieve env.store env.cosineDistance queryVector 5 (some 16) [] none
            if r.2.status = RetStatus.no_results then
              { httpStatus := 200, errorMsg := none,
                answer := some "En löytänyt mitään tähän kysymykseen nykyisestä tietokannasta.".toList,
                contextUsed := [], confidence := some 0,
                retrievalDebug := some (ChatDebug.retrieval r.2),
                followUpQuestions := (generateFollowUpQuestions env []).1,
                lowConf := false, calls := calls1 }
            else
              chatFinish env r.1 (ChatDebug.retrieval r.2)
                (decide (r.2.status = RetStatus.low_confidence ∨
                  r.2.status = RetStatus.very_low_confidence)) calls1

/-! ### 5. The automation ingest pipeline (`automation/tasks.py`)

Django tables become lists held in queryset order (`RoadmapItem` Meta
ordering `["section", "order", "id"]`; the `LearningEntry` store keeps
insertion order plus the next auto-increment id).  The Groq summarization
call is an oracle `llm : Nat → ...` giving the parsed outcome for the i-th
event; `failAt i = true` means an unexpected exception was raised while
processing event i (the situation `transaction.atomic` protects against).
`section` is a Lean keyword, so the foreign key field is named `sec`. -/

structure RoadmapSectionRec where
  id : Nat
  title : List Char
  description : List Char
  order : Nat
deriving DecidableEq, Repr

structure RoadmapItemRec where
  id : Nat
  sec : Option RoadmapSectionRec
  title : List Char
  description : List Char
  order : Nat
  is_active : Bool
deriving DecidableEq, Repr

/-- A roadmap candidate proposed by the LLM (`{section, item, confidence}`). -/
structure LLMCand where
  item : Option (List Char)
  sec : Option (List Char)
  confidence : ℚ
deriving DecidableEq, Repr

structure LearningEntryRec where
  id : Nat
  title : List Char
  content : List Char
  is_public : Bool
  roadmap_item_id : Option Nat
deriving DecidableEq, Repr

structure EntryStore where
  rows : List LearningEntryRec
  nextId : Nat
deriving DecidableEq, Repr

/-- A parsed automation event (the dicts produced by the webhook parsers). -/
structure AutomationEvent where
  content : List Char
  messages : List (List Char)
  /-- Python `entry.get("is_public", True)`. -/
  is_public : Option Bool
  /-- Python `entry.get("roadmap_item_id")`. -/
  roadmap_item_id : Option Nat
  /-- Python `entry.get("files")`, `[]` when absent. -/
  files : List (List Char)
  /-- Python `entry.get("summary_payload")`; a present payload carries its `files`. -/
  summary_payload : Option (List (List Char))
deriving DecidableEq, Repr

structure AutoEnv where
  groqKeySet : Bool
  /-- Parsed outcome of the Groq summarization call for the i-th event
  (`(None, [])` models every failure path in `_summarize_entry_with_groq`). -/
  llm : Nat → Option (List Char) × List LLMCand
  /-- When `failAt i = true`, an unexpected exception is raised while the i-th
  event is being processed inside the transaction. -/
  failAt : Nat → Bool

/-- Python `a or b` on optional integers (id `0` is falsy). -/
def pyOrOptNat (a b : Option Nat) : Option Nat :=
  match a with
  | some n => if n = 0 then b else some n
  | none => b

/-- Python `a or b` on lists (`None` and `[]` are both falsy). -/
def pyOrList (a b : List α) : List α :=
  match a with
  | [] => b
  | _ :: _ => a

/-- Python `opt or ""`. -/
def pyOptStr (o : Option (List Char)) : List Char :=
  match o with
  | none => []
  | some s => s

/-- Python `opt or dflt` on an optional string (empty string is falsy). -/
def pyOrStrOpt (o : Option (List Char)) (dflt : List Char) : List Char :=
  match o with
  | none => dflt
  | some s => if s = [] then dflt else s

/-- Python `int(q)` (truncation toward zero). -/
def pyInt (q : ℚ) : Int :=
  if q < 0 then -Rat.floor (-q) else Rat.floor q

/-- Python string `<` (lexicographic by code point), for `sorted`. -/
def strLe : List Char → List Char → Bool
  | [], _ => true
  | _ :: _, [] => false
  | a :: as, b :: bs =>
    if a.val < b.val then true
    else if b.val < a.val then false
    else strLe as bs

/-- Shorthand for literal lists of strings. -/
def strs (l : List String) : List (List Char) :=
  l.map String.toList

/-- One entry of the `_section_bias_tokens()` dict. -/
structure BiasCfg where
  section_keywords : List (List Char)
  tokens : List (List Char)
  paths : List (List Char)
deriving Repr

/-- The dict `_section_bias_tokens()`, in insertion order. -/
def sectionBiasTokens : List (List Char × BiasCfg) :=
  [ ("agents".toList,
      { section_keywords := strs ["agent", "mcp", "automation", "tool"],
        tokens := strs ["mcp", "agent", "agents", "tool", "tools", "automation",
          "webhook", "orchestration"],
        paths := strs ["automation/", "mcp_server/", "agent_service/", "scripts/agents"] }),
    ("rag".toList,
      { section_keywords := strs ["rag", "vector", "embedding", "search"],
        tokens := strs ["rag", "retrieval", "embedding", "embeddings", "vector",
          "chunk", "chunks", "chunking", "pgvector", "similarity", "index"],
        paths := strs ["vector", "embedding", "rag", "search", "knowledge"] }),
    ("safety".toList,
      { section_keywords := strs ["safety", "security", "guardrail", "audit",
          "evaluation", "bias"],
        tokens := strs ["security", "guardrail", "guardrails", "audit", "safety",
          "jailbreak", "attack", "defense", "bias", "eval", "evaluation"],
        paths := strs ["security", "audit", "guardrail", "safety", "tests/security"] }) ]

/-- The helper `_guess_roadmap_item_id(messages)`. -/
def guessRoadmapItemId (items : List RoadmapItemRec) (messages : List (List Char)) :
    Option Nat :=
  if messages = [] then none
  else
    let blob := pyLower (pyJoin " ".toList messages)
    (items.find? (fun item =>
      let tl := pyLower item.title
      decide (tl ≠ []) && pyIn tl blob)).map (fun item => item.id)

/-- Python `(item.section.title if item.section else "") or ""`, lowered. -/
def sectionTitleLowerOf (item : RoadmapItemRec) : List Char :=
  pyLower (match item.sec with
    | some s => s.title
    | none => [])

/-- The exact-phrase component of the match score. -/
def phraseScore (text phrase : List Char) (weight : Nat) : Int :=
  if phrase ≠ [] ∧ pyIn phrase text then ((phrase.length * weight : Nat) : Int) else 0

/-- The weighted token list of one field (`chunk.replace("/", " ").split()`,
tokens of length at least 3). -/
def tokenList (chunk : List Char) (weight : Nat) : List (List Char × Nat) :=
  if chunk = [] then []
  else ((pySplit (chunk.map (fun c => if c = '/' then ' ' else c))).filter
    (fun t => t.length ≥ 3)).map (fun t => (t, weight))

/-- The first taxonomy key whose `section_keywords` hit the section title. -/
def findSectionKey (sectionTitleLower : List Char) : Option (List Char) :=
  (sectionBiasTokens.find? (fun kv =>
    kv.2.section_keywords.any (fun kw => pyIn kw sectionTitleLower))).map Prod.fst

/-- The section-bias bonus (25 per hit kind, one token hit is enough). -/
def sectionBiasScore (text : List Char) (filePaths : List (List Char))
    (sectionTitleLower : List Char) : Int :=
  match findSectionKey sectionTitleLower with
  | none => 0
  | some key =>
    match sectionBiasTokens.find? (fun kv => kv.1 = key) with
    | none => 0
    | some kv =>
      (if kv.2.tokens.any (fun t => pyIn t text) then 25 else 0) +
      (if kv.2.paths.any (fun p => filePaths.any (fun fp => pyIn p (pyLower fp)))
        then 25 else 0)

/-- The LLM-candidate bonus for one item. -/
def llmBonus (cands : List LLMCand) (title sectionTitleLower : List Char) : Int :=
  cands.foldl (fun acc cand =>
    let itemName := pyLower (pyOptStr cand.item)
    let sectionName := pyLower (pyOptStr cand.sec)
    let conf := cand.confidence
    if conf ≤ 0 then acc
    else if itemName ≠ [] ∧ itemName = title then max acc (pyInt (conf * 50))
    else if sectionName ≠ [] ∧ sectionName = sectionTitleLower then
      max acc (pyInt (conf * 25))
    else acc) 0

/-- The total match score of one roadmap item against the event text. -/
def matchItemScore (text : List Char) (filePaths : List (List Char))
    (llmCands : List LLMCand) (item : RoadmapItemRec) : Int :=
  let title := pyLower item.title
  let desc := pyLower item.description
  let sectionTitleLower := sectionTitleLowerOf item
  let exact := phraseScore text title 3 + phraseScore text desc 2 +
    phraseScore text sectionTitleLower 4
  let toks := tokenList title 2 ++ tokenList desc 1 ++ tokenList sectionTitleLower 3
  let tokScore := (toks.map (fun tw =>
    if pyIn tw.1 text then ((tw.1.length * tw.2 : Nat) : Int) else 0)).sum
  let sb := sectionBiasScore text filePaths sectionTitleLower
  let lb := if llmCands ≠ [] then llmBonus llmCands title sectionTitleLower else 0
  let penalty : Int :=
    if pyIn "foundation".toList sectionTitleLower ∧ sb = 0 then 15 else 0
  exact + tokScore + sb + lb - penalty

/-- The matcher `_match_roadmap_item_by_text(summary, raw, files, llm_candidates)`. -/
def matchRoadmapItemByText (items : List RoadmapItemRec) (summary : Option (List Char))
    (raw : List Char) (files : List (List Char)) (llmCands : List LLMCand) :
    Option Nat :=
  if items.length = 0 then none
  else
    let text := pyLower (pyJoin " ".toList
      (([pyOptStr summary, raw]).filter (fun t => t ≠ [])))
    if pyStrip text = [] then none
    else
      let best := items.foldl (fun (acc : Option Nat × Int) item =>
        let score := matchItemScore text files llmCands item
        if score > acc.2 then (some item.id, score) else acc) (none, 0)
      if best.2 ≥ 8 then best.1 else none

/-- The helper `_select_item_from_llm_candidates`: scan candidates by descending
confidence, filter the item table case-insensitively, take the first hit. -/
def selectLoop (items : List RoadmapItemRec) (threshold : ℚ) :
    List LLMCand → Option Nat
  | [] => none
  | cand :: rest =>
    if cand.confidence < threshold then selectLoop items threshold rest
    else
      let itemName := pyLower (pyStrip (pyOptStr cand.item))
      let sectionName := pyLower (pyStrip (pyOptStr cand.sec))
      let qs1 := if itemName = [] then items
        else items.filter (fun it => decide (pyLower it.title = itemName))
      let qs2 := if sectionName = [] then qs1
        else qs1.filter (fun it =>
          match it.sec with
          | some s => decide (pyLower s.title = sectionName)
          | none => false)
      match qs2.head? with
      | some it => some it.id
      | none => selectLoop items threshold rest

def selectItemFromLlmCandidates (items : List RoadmapItemRec)
    (cands : List LLMCand) (threshold : ℚ) : Option Nat :=
  if cands = [] then none
  else
    selectLoop items threshold
      (sortLe (fun a b => decide (b.confidence ≤ a.confidence)) cands)

/-- The helper `_build_content_blocks`: returns `(display_block, content)`; the raw-event meta
block carries the dedup marker.  (`entry_content` is accepted and unused,
exactly as in the source.) -/
def buildContentBlocks (aiSummary : Option (List Char)) (entryContent : List Char)
    (roadmapLine roadmapContext : Option (List Char))
    (dedupMarker : Option (List Char)) (filePaths : List (List Char)) :
    List Char × List Char :=
  let summaryText := pyOrStrOpt aiSummary
    "Learning update captured automatically; raw event stored separately.".toList
  let displayParts := [summaryText] ++
    (([roadmapLine, roadmapContext].filterMap id).filter (fun e => e ≠ []))
  let displayParts2 := if filePaths ≠ [] then
      displayParts ++ ["Files changed:".toList] ++ sortLe strLe filePaths.eraseDups
    else displayParts
  let displayBlock := pyJoin "\n\n".toList
    (displayParts2.filter (fun p => decide (p ≠ []) && decide (pyStrip p ≠ [])))
  let metaParts := match dedupMarker with
    | some m => [m]
    | none => []
  let metaBlock := if metaParts ≠ [] then
      "---\nRaw event:\n".toList ++ pyJoin "\n".toList metaParts
    else []
  let content := pyJoin "\n\n".toList
    (([displayBlock, metaBlock]).filter (fun p => p ≠ []))
  (displayBlock, content)

/-- The outcome of `_summarize_entry_with_groq` for the i-th event plus the number
of Groq chat calls attempted (0 when the payload or the key is missing). -/
def summarizeEntryWithGroq (env : AutoEnv) (idx : Nat) (e : AutomationEvent) :
    (Option (List Char) × List LLMCand) × Nat :=
  if e.summary_payload = none ∨ env.groqKeySet = false then ((none, []), 0)
  else (env.llm idx, 1)

/-- The payload `files` (`(entry.get("summary_payload") or {}).get("files") or []`). -/
def payloadFiles (e : AutomationEvent) : List (List Char) :=
  match e.summary_payload with
  | some fs => fs
  | none => []

structure ProcessedEvent where
  store : EntryStore
  entryId : Nat
  rid : Option Nat
  llmCalls : Nat

/-- The body of the per-event loop inside `transaction.atomic()`. -/
def processEvent (items : List RoadmapItemRec) (env : AutoEnv)
    (msgs : List (List Char)) (marker : Option (List Char)) (idx : Nat)
    (e : AutomationEvent) (st : EntryStore) : ProcessedEvent :=
  let s := summarizeEntryWithGroq env idx e
  let aiSummary := s.1.1
  let llmCands := s.1.2
  let filePaths := pyOrList e.files (payloadFiles e)
  let llmMatch := selectItemFromLlmCandidates items llmCands (6/10)
  let rid := pyOrOptNat llmMatch
    (pyOrOptNat (matchRoadmapItemByText items aiSummary e.content filePaths llmCands)
      (guessRoadmapItemId items msgs))
  let item := rid.bind (fun i => items.find? (fun it => decide (it.id = i)))
  let roadmapLine := match item with
    | some it =>
      match it.sec with
      | some sec => some ("Related to: ".toList ++ sec.title ++ " > ".toList ++ it.title)
      | none => none
    | none => none
  let roadmapContext := match item with
    | some it =>
      match it.sec with
      | some _ => if it.description ≠ [] then some (pyStrip it.description) else none
      | none => none
    | none => none
  let title := match item with
    | some it =>
      match it.sec with
      | some sec => natStr sec.order ++ ". ".toList ++ sec.title
      | none => "Learning update".toList
    | none => "Learning update".toList
  let content := (buildContentBlocks aiSummary e.content roadmapLine roadmapContext
    marker filePaths).2
  let row : LearningEntryRec :=
    { id := st.nextId, title := title, content := content,
      is_public := e.is_public.getD true,
      roadmap_item_id := pyOrOptNat e.roadmap_item_id rid }
  { store := { rows := st.rows ++ [row], nextId := st.nextId + 1 },
    entryId := row.id, rid := rid, llmCalls := s.2 }

/-- The `for entry in entries:` loop inside `transaction.atomic()`.  The
`Nat` component counts Groq calls; `Except.error` models an exception
escaping the block. -/
def runEvents (items : List RoadmapItemRec) (env : AutoEnv)
    (msgs : List (List Char)) (marker : Option (List Char)) :
    List AutomationEvent → Nat → EntryStore → List Nat → Option Nat → Nat →
      Except Unit (EntryStore × List Nat × Option Nat) × Nat
  | [], _, st, ids, lastRid, calls => (Except.ok (st, ids, lastRid), calls)
  | e :: rest, idx, st, ids, lastRid, calls =>
    if env.failAt idx then (Except.error (), calls)
    else
      let p := processEvent items env msgs marker idx e st
      runEvents items env msgs marker rest (idx + 1) p.store (ids ++ [p.entryId])
        p.rid (calls + p.llmCalls)

/-- The result dict of `create_learning_entries_from_events`; keys that a
path does not emit are `none`. -/
structure CreateResult where
  created : Nat
  skipped : Nat
  reason : Option (List Char)
  roadmap_item_id : Option (Option Nat)
  entry_ids : Option (List Nat)
deriving DecidableEq, Repr

/-- The task `create_learning_entries_from_events(entries, delivery_id)`.  Returns the
result (or the escaped exception), the store after the call (rolled back to
the input store on an exception, by `transaction.atomic`), and the number of
Groq summarization calls. -/
def createLearningEntriesFromEvents (items : List RoadmapItemRec) (env : AutoEnv)
    (entries : List AutomationEvent) (deliveryId : Option (List Char))
    (st : EntryStore) : Except Unit CreateResult × EntryStore × Nat :=
  if entries = [] then
    (Except.ok { created := 0, skipped := 0,
                 reason := some "no_entries".toList,
                 roadmap_item_id := none, entry_ids := none }, st, 0)
  else
    let marker := match deliveryId with
      | some d => if d = [] then none else some ("GitHub Delivery ID: ".toList ++ d)
      | none => none
    let dup := match marker with
      | some m => st.rows.any (fun r => pyIn (pyLower m) (pyLower r.content))
      | none => false
    if dup then
      (Except.ok { created := 0, skipped := entries.length,
                   reason := some "duplicate_delivery".toList,
                   roadmap_item_id := none, entry_ids := none }, st, 0)
    else
      let msgs := entries.flatMap (fun e => e.messages)
      match runEvents items env msgs marker entries 0 st [] none 0 with
      | (Except.ok (st2, ids, lastRid), calls) =>
          (Except.ok { created := ids.length, skipped := 0, reason := none,
                       roadmap_item_id := some lastRid,
                       entry_ids := some ids }, st2, calls)
      | (Except.error e2, calls) => (Except.error e2, st, calls)

/-! ### 6. Helper lemmas -/

theorem mem_dropWhile_of_not_ws {c : Char} {l : List Char}
    (hm : c ∈ l) (hw : c.isWhitespace = false) :
    c ∈ l.dropWhile Char.isWhitespace := by
  induction l with
  | nil => cases hm
  | cons a as ih =>
      rw [List.dropWhile_cons]
      by_cases ha : a.isWhitespace = true
      · simp only [ha, if_true]
        rcases List.mem_cons.mp hm with rfl | hmem
        · rw [hw] at ha; cases ha
        · exact ih hmem
      · simp only [ha, if_false]
        exact hm

theorem mem_pyStrip_of_not_ws {c : Char} {l : List Char}
    (hm : c ∈ l) (hw : c.isWhitespace = false) : c ∈ pyStrip l := by
  unfold pyStrip
  rw [List.mem_reverse]
  apply mem_dropWhile_of_not_ws _ hw
  rw [List.mem_reverse]
  exact mem_dropWhile_of_not_ws hm hw

theorem pyStrip_ne_nil_of_mem {c : Char} {l : List Char}
    (hm : c ∈ l) (hw : c.isWhitespace = false) : pyStrip l ≠ [] := by
  intro h
  have := mem_pyStrip_of_not_ws hm hw
  rw [h] at this
  cases this

/-- Partial-correctness invariant of the chunker loop: whatever fuel it is
given, if it finishes then the accumulated segments survive and every
non-whitespace character of the unprocessed suffix ends up in some segment. -/
theorem chunkLoop_covers (text : List Char) (maxChars ovc : Nat) :
    ∀ fuel start acc segs,
      chunkLoop text maxChars ovc fuel start acc = some segs →
      (∀ s ∈ acc, s ∈ segs) ∧
      (∀ c ∈ text.drop start, c.isWhitespace = false → ∃ s ∈ segs, c ∈ s) := by
  intro fuel
  induction fuel with
  | zero => intro start acc segs h; cases h
  | succ fuel ih =>
      intro start acc segs h
      rw [chunkLoop] at h
      by_cases hs : start < text.length
      · rw [if_pos hs] at h
        set stop := min text.length (start + maxChars) with hstop
        set cseg := pyStrip (pySlice text start stop) with hcseg
        set acc2 := if cseg = [] then acc else acc ++ [cseg] with hacc2
        have hacc_sub : ∀ s ∈ acc, s ∈ acc2 := by
          intro s hsmem
          rw [hacc2]
          by_cases hc : cseg = []
          · rw [if_pos hc]; exact hsmem
          · rw [if_neg hc]; exact List.mem_append_left _ hsmem
        have hstart_le : start ≤ stop := by
          rw [hstop]; exact le_min (Nat.le_of_lt hs) (Nat.le_add_right _ _)
        have hdd : (text.drop start).drop (stop - start) = text.drop stop := by
          rw [List.drop_drop]
          congr 1
          omega
        have hsplit : text.drop start = pySlice text start stop ++ text.drop stop := by
          unfold pySlice
          conv_lhs => rw [← List.take_append_drop (stop - start) (text.drop start)]
          rw [hdd]
        have hwindow : ∀ c ∈ pySlice text start stop, c.isWhitespace = false →
            ∃ s ∈ acc2, c ∈ s := by
          intro c hc hw
          refine ⟨cseg, ?_, ?_⟩
          · rw [hacc2, if_neg (pyStrip_ne_nil_of_mem hc hw)]
            exact List.mem_append_right _ (List.mem_singleton.mpr rfl)
          · rw [hcseg]; exact mem_pyStrip_of_not_ws hc hw
        by_cases hend : stop = text.length
        · rw [if_pos hend] at h
          have hsegs : acc2 = segs := by exact Option.some.inj h
          constructor
          · intro s hsmem; rw [← hsegs]; exact hacc_sub s hsmem
          · intro c hc hw
            rw [← hsegs]
            have hdrop_nil : text.drop stop = [] := by
              rw [hend, List.drop_length]
            rw [hsplit, hdrop_nil, List.append_nil] at hc
            exact hwindow c hc hw
        · rw [if_neg hend] at h
          obtain ⟨hsub, hcov⟩ := ih (stop - ovc) acc2 segs h
          constructor
          · intro s hsmem; exact hsub s (hacc_sub s hsmem)
          · intro c hc hw
            rw [hsplit] at hc
            rcases List.mem_append.mp hc with hcw | hcd
            · obtain ⟨s, hsm, hcs⟩ := hwindow c hcw hw
              exact ⟨s, hsub s hsm, hcs⟩
            · apply hcov c _ hw
              have hdd2 : text.drop stop = (text.drop (stop - ovc)).drop (stop - (stop - ovc)) := by
                rw [List.drop_drop]
                congr 1
                omega
              rw [hdd2] at hcd
              exact List.mem_of_mem_drop hcd
      · rw [if_neg hs] at h
        have hsegs : acc = segs := Option.some.inj h
        constructor
        · intro s hsmem; rw [← hsegs]; exact hsmem
        · intro c hc _
          rw [List.drop_eq_nil_of_le (Nat.le_of_not_lt hs)] at hc
          cases hc

/-- With a positive window width the loop always terminates: the remaining
text shrinks by at least one on every step. -/
theorem chunkLoop_isSome (text : List Char) (maxChars ovc : Nat)
    (hmax : 1 ≤ maxChars) (hov : ovc + ovc ≤ maxChars) :
    ∀ fuel start acc, text.length - start < fuel →
      ∃ segs, chunkLoop text maxChars ovc fuel start acc = some segs := by
  intro fuel
  induction fuel with
  | zero => intro start acc h; omega
  | succ fuel ih =>
      intro start acc h
      rw [chunkLoop]
      by_cases hs : start < text.length
      · rw [if_pos hs]
        set stop := min text.length (start + maxChars) with hstop
        by_cases hend : stop = text.length
        · rw [if_pos hend]
          exact ⟨_, rfl⟩
        · rw [if_neg hend]
          have hlt : start + maxChars < text.length := by
            rcases Nat.lt_or_ge (start + maxChars) text.length with hl | hg
            · exact hl
            · exact absurd (by rw [hstop]; omega) hend
          have hstop_eq : stop = start + maxChars := by rw [hstop]; omega
          apply ih
          omega
      · rw [if_neg hs]
        exact ⟨_, rfl⟩

/-- Statement that `chunk_text` loops forever on this input: every fuel bound is exhausted. -/
def chunkTextDiverges (text : List Char) (maxChars overlap : Nat) : Prop :=
  ∀ fuel, chunkText fuel text maxChars overlap = none

theorem chunkLoop_fixpoint (text : List Char) (ovc : Nat) :
    ∀ fuel start acc, start < text.length →
      chunkLoop text 0 ovc fuel start (acc) = none := by
  intro fuel
  induction fuel with
  | zero => intro start acc _; rw [chunkLoop]
  | succ fuel ih =>
      intro start acc hs
      rw [chunkLoop, if_pos hs]
      have hstop : min text.length (start + 0) = start := by omega
      simp only [hstop]
      have hslice : pySlice text start start = [] := by
        unfold pySlice
        simp
      rw [hslice]
      have hstrip : pyStrip ([] : List Char) = [] := by rfl
      rw [hstrip]
      simp only [if_pos rfl]
      rw [if_neg (by omega)]
      have : start - ovc ≤ start := Nat.sub_le _ _
      rcases Nat.lt_or_ge (start - ovc) text.length with hlt | hge
      · exact ih (start - ovc) acc hlt
      · omega

/-- On a non-empty filtered store with a positive candidate pool,
`smart_retrieve` reaches its success branch: the returned chunk count is
`min top_k rl` for the positive candidate-pool size `rl`, and the
diagnostics dict carries every key. -/
theorem smartRetrieve_success (store : List KnowledgeChunk)
    (cosD : List ℚ → List ℚ → ℚ) (qv : List ℚ) (topK : Nat) (ck : Option Nat)
    (sts : List SourceType) (did : Option Nat)
    (hne : applyFilters store sts did ≠ [])
    (hck : ∀ k, ck = some k → 1 ≤ k) :
    ∃ rl, 1 ≤ rl ∧
      (smartRetrieve store cosD qv topK ck sts did).1.length = min topK rl ∧
      (smartRetrieve store cosD qv topK ck sts did).2.max_score.isSome = true ∧
      (smartRetrieve store cosD qv topK ck sts did).2.avg_score.isSome = true ∧
      (smartRetrieve store cosD qv topK ck sts did).2.total_available =
        some (applyFilters store sts did).length ∧
      (smartRetrieve store cosD qv topK ck sts did).2.returned =
        some (smartRetrieve store cosD qv topK ck sts did).1.length ∧
      (smartRetrieve store cosD qv topK ck sts did).2.candidate_k.isSome = true := by
  have h0 : ¬ ((applyFilters store sts did).length = 0) := by
    intro h
    exact hne (List.length_eq_zero.mp h)
  have hck1 : 1 ≤ (match ck with
      | none => max topK 16
      | some k => k) := by
    cases ck with
    | none => simp only []; omega
    | some k => exact hck k rfl
  set qs := applyFilters store sts did with hqs
  set ck0 := (match ck with
    | none => max topK 16
    | some k => k) with hck0
  have hqslen : 1 ≤ qs.length := by omega
  set sorted := sortLe (fun a b =>
    decide (cosD a.vector qv ≤ cosD b.vector qv)) qs with hsorted
  have hsortlen : sorted.length = qs.length := length_sortLe _ _
  set rawQs := sorted.take (min ck0 qs.length) with hraw
  have hrawlen : rawQs.length = min ck0 qs.length := by
    rw [hraw, List.length_take, hsortlen]
    omega
  have hrawpos : 1 ≤ rawQs.length := by omega
  have hrawne : ¬ (rawQs = []) := by
    intro h
    rw [h] at hrawlen
    simp at hrawlen
    omega
  refine ⟨rawQs.length, hrawpos, ?_⟩
  simp only [smartRetrieve, ← hqs, ← hck0, ← hsorted, ← hraw]
  rw [if_neg h0, if_neg hrawne]
  simp [List.length_map, List.length_take, length_sortLe]

theorem pyLower_append (a b : List Char) : pyLower (a ++ b) = pyLower a ++ pyLower b :=
  List.map_append _ a b

theorem isPrefixOf_self (l : List Char) : l.isPrefixOf l = true := by
  induction l with
  | nil => rfl
  | cons a as ih => simp [List.isPrefixOf, ih]

theorem pyIn_self (n : List Char) : pyIn n n = true := by
  cases n with
  | nil => rfl
  | cons c cs =>
      rw [pyIn]
      rw [isPrefixOf_self]
      rfl

theorem pyIn_append_right (n a : List Char) : pyIn n (a ++ n) = true := by
  induction a with
  | nil => rw [List.nil_append]; exact pyIn_self n
  | cons b bs ih =>
      rw [List.cons_append, pyIn, ih, Bool.or_true]

theorem pyJoin_singleton (sep x : List Char) : pyJoin sep [x] = x := by
  simp [pyJoin, List.intercalate]

theorem pyJoin_pair (sep a b : List Char) : pyJoin sep [a, b] = a ++ sep ++ b := by
  simp [pyJoin, List.intercalate, List.intersperse]

/-- The final join of `_build_content_blocks`: whatever the display block
is, the non-empty meta block survives the truthiness filter and closes the
content. -/
theorem pyJoin_filter_pair (sep db mb : List Char) (hmb : mb ≠ []) :
    ∃ pre, pyJoin sep (([db, mb]).filter (fun p => p ≠ [])) = pre ++ mb := by
  by_cases hdb : db = []
  · refine ⟨[], ?_⟩
    subst hdb
    simp only [List.filter, decide_not]
    rw [decide_eq_false hmb]
    simp [pyJoin_singleton]
  · refine ⟨db ++ sep, ?_⟩
    simp only [List.filter, decide_not]
    rw [decide_eq_false hmb, decide_eq_false hdb]
    simp only [Bool.not_false]
    rw [pyJoin_pair]

/-- The content produced by `_build_content_blocks` with a dedup marker ends
in the marker (it sits inside the hidden raw-event block). -/
theorem buildContentBlocks_marker (aiS : Option (List Char)) (ec : List Char)
    (line ctx : Option (List Char)) (m : List Char) (files : List (List Char)) :
    ∃ pre, (buildContentBlocks aiS ec line ctx (some m) files).2 = pre ++ m := by
  have hheader : ("---\nRaw event:\n".toList : List Char) ≠ [] := by decide
  have hmb : ("---\nRaw event:\n".toList ++ pyJoin "\n".toList [m]) ≠ [] := by
    intro h
    exact hheader (List.append_eq_nil.mp h).1
  unfold buildContentBlocks
  simp only []
  rw [if_pos (by simp : ([m] : List (List Char)) ≠ [])]
  obtain ⟨pre0, hp⟩ := pyJoin_filter_pair "\n\n".toList _ _ hmb
  refine ⟨pre0 ++ "---\nRaw event:\n".toList, ?_⟩
  rw [hp, pyJoin_singleton, List.append_assoc]

/-- Each `processEvent` call appends exactly one row, bumps the id counter, and the
row's content carries the dedup marker whenever one is set. -/
theorem processEvent_rows (items : List RoadmapItemRec) (env : AutoEnv)
    (msgs : List (List Char)) (marker : Option (List Char)) (idx : Nat)
    (e : AutomationEvent) (st : EntryStore) :
    ∃ row, (processEvent items env msgs marker idx e st).store.rows = st.rows ++ [row] ∧
      (processEvent items env msgs marker idx e st).store.nextId = st.nextId + 1 ∧
      ∀ m, marker = some m → pyIn (pyLower m) (pyLower row.content) = true := by
  refine ⟨_, rfl, rfl, ?_⟩
  intro m hm
  subst hm
  show pyIn (pyLower m)
    (pyLower ((buildContentBlocks _ e.content _ _ (some m) _).2)) = true
  obtain ⟨pre, hp⟩ := buildContentBlocks_marker _ e.content _ _ m _
  rw [hp, pyLower_append]
  exact pyIn_append_right _ _

/-- When an ok result comes out of the transaction loop, the store grew by
exactly one row per event, the created-ids list grew likewise, and every new
row's content carries the dedup marker. -/
theorem runEvents_ok_shape (items : List RoadmapItemRec) (env : AutoEnv)
    (msgs : List (List Char)) (marker : Option (List Char)) :
    ∀ (entries : List AutomationEvent) (idx : Nat) (st : EntryStore)
      (ids : List Nat) (lastRid : Option Nat) (calls : Nat)
      (st2 : EntryStore) (ids2 : List Nat) (r2 : Option Nat) (c2 : Nat),
      runEvents items env msgs marker entries idx st ids lastRid calls =
        (Except.ok (st2, ids2, r2), c2) →
      ∃ rows, st2.rows = st.rows ++ rows ∧ rows.length = entries.length ∧
        ids2.length = ids.length + entries.length ∧
        (∀ m row, marker = some m → row ∈ rows →
          pyIn (pyLower m) (pyLower row.content) = true) := by
  intro entries
  induction entries with
  | nil =>
      intro idx st ids lastRid calls st2 ids2 r2 c2 h
      rw [runEvents] at h
      simp only [Prod.mk.injEq, Except.ok.injEq] at h
      obtain ⟨⟨hst, hids, hrid⟩, hcalls⟩ := h
      refine ⟨[], ?_, rfl, ?_, ?_⟩
      · rw [← hst, List.append_nil]
      · rw [← hids]
        simp
      · intro m row _ hrow
        cases hrow
  | cons e rest ih =>
      intro idx st ids lastRid calls st2 ids2 r2 c2 h
      rw [runEvents] at h
      by_cases hf : env.failAt idx = true
      · rw [if_pos hf] at h
        simp only [Prod.mk.injEq] at h
        cases h.1
      · rw [if_neg hf] at h
        simp only [] at h
        obtain ⟨rows2, hrows2, hlen2, hids2, hmark2⟩ :=
          ih (idx + 1) (processEvent items env msgs marker idx e st).store
            (ids ++ [(processEvent items env msgs marker idx e st).entryId])
            (processEvent items env msgs marker idx e st).rid
            (calls + (processEvent items env msgs marker idx e st).llmCalls)
            st2 ids2 r2 c2 h
        obtain ⟨row, hrow_eq, hnext, hrowm⟩ :=
          processEvent_rows items env msgs marker idx e st
        refine ⟨row :: rows2, ?_, ?_, ?_, ?_⟩
        · rw [hrows2, hrow_eq, List.append_assoc]
          rfl
        · simp only [List.length_cons, hlen2]
        · rw [hids2]
          simp only [List.length_append, List.length_cons, List.length_nil]
          omega
        · intro m r hm hr
          rcases List.mem_cons.mp hr with rfl | hr2
          · exact hrowm m hm
          · exact hmark2 m r hm hr2

/-- Without exceptions the transaction loop always finishes with ok. -/
theorem runEvents_no_fail (items : List RoadmapItemRec) (env : AutoEnv)
    (msgs : List (List Char)) (marker : Option (List Char))
    (hfail : ∀ j, env.failAt j = false) :
    ∀ (entries : List AutomationEvent) (idx : Nat) (st : EntryStore)
      (ids : List Nat) (lastRid : Option Nat) (calls : Nat),
      ∃ st2 ids2 r2 c2,
        runEvents items env msgs marker entries idx st ids lastRid calls =
          (Except.ok (st2, ids2, r2), c2) := by
  intro entries
  induction entries with
  | nil =>
      intro idx st ids lastRid calls
      exact ⟨st, ids, lastRid, calls, by rw [runEvents]⟩
  | cons e rest ih =>
      intro idx st ids lastRid calls
      obtain ⟨st2, ids2, r2, c2, h⟩ :=
        ih (idx + 1) (processEvent items env msgs marker idx e st).store
          (ids ++ [(processEvent items env msgs marker idx e st).entryId])
          (processEvent items env msgs marker idx e st).rid
          (calls + (processEvent items env msgs marker idx e st).llmCalls)
      refine ⟨st2, ids2, r2, c2, ?_⟩
      rw [runEvents, if_neg (by simp [hfail idx])]
      exact h

/-- Projections of `chatFinish` when the main Groq completion succeeds. -/
theorem chatFinish_success (env : ChatEnv) (chunks : List KnowledgeChunk)
    (debug : ChatDebug) (lc : Bool) (calls : List ProviderCall) (ans : List Char)
    (hcomp : env.completionResult = some ans) :
    (chatFinish env chunks debug lc calls).httpStatus = 200 ∧
    (chatFinish env chunks debug lc calls).answer = some ans ∧
    (chatFinish env chunks debug lc calls).contextUsed = chunks ∧
    (chatFinish env chunks debug lc calls).lowConf = lc ∧
    (chatFinish env chunks debug lc calls).confidence = chatDebugMaxScore debug ∧
    (chatFinish env chunks debug lc calls).retrievalDebug = some debug := by
  unfold chatFinish
  rw [hcomp]
  exact ⟨rfl, rfl, rfl, rfl, rfl, rfl⟩

/-! ### 7. Claims -/

/-- A sample indexed chunk used by concrete witnesses and counterexamples. -/
def sampleChunk : KnowledgeChunk :=
  { id := 1, source_type := SourceType.learning_entry, source_id := some 1,
    title := "embeddings".toList, content := "notes on embeddings".toList,
    section_title := [], item_title := [], tags := "learning_entry".toList,
    vector := [] }

/-- A degraded environment for the chat view: the guardrail passes, both
provider keys are set, the Cohere embedding call raises (rate limit), the
store holds a chunk whose title is exactly the query keyword, and the main
completion succeeds. -/
def envDegraded : ChatEnv :=
  { store := [sampleChunk], cosineDistance := fun _ _ => 0,
    safetyResp := some (true, []), cohereKeySet := true, groqKeySet := true,
    embedResult := none, vectorSearchRaises := false,
    completionResult := some "answer".toList, followUpResult := none }

/-- A healthy environment used to exercise the blank-question path. -/
def envIdle : ChatEnv :=
  { store := [], cosineDistance := fun _ _ => 0,
    safetyResp := some (true, []), cohereKeySet := true, groqKeySet := true,
    embedResult := some [], vectorSearchRaises := false,
    completionResult := some "answer".toList, followUpResult := none }

/-- C1 counterexample.  The claim says a degraded vector path triggers a
keyword fallback that substring-matches query keywords against chunk
titles/contents and forces confidence out of the low band.  Here the
embedding step fails, the store holds a chunk whose title equals the single
query keyword ("embeddings" is no stop word and longer than one character),
yet the handler returns zero context chunks, keeps its low-confidence flag
set, reports `rate_limit_fallback`, and has no keyword-search step at
all. -/
theorem aiChat_c1_counterexample :
    pyIn "embeddings".toList sampleChunk.title = true ∧
    (aiChatPost envDegraded "embeddings".toList).contextUsed = [] ∧
    (aiChatPost envDegraded "embeddings".toList).lowConf = true ∧
    (aiChatPost envDegraded "embeddings".toList).retrievalDebug =
      some ChatDebug.rateLimitFallback ∧
    (aiChatPost envDegraded "embeddings".toList).confidence = none := by
  exact ⟨by decide, rfl, rfl, rfl, rfl⟩

/-- C1 (amended): the answer endpoint has no keyword fallback.  When the
embedding step fails it proceeds with an empty context, low-confidence flag
set, `rate_limit_fallback` status and no confidence score; when the vector
query raises it does the same with `db_error_fallback`; when vector search
succeeds with low or very low confidence the vector candidates are kept and
the low-confidence flag is set.  Lexical matches never upgrade
confidence. -/
theorem aiChat_degraded_no_keyword_fallback (env : ChatEnv) (question ans : List Char)
    (hq : pyStrip question ≠ [])
    (hsafe : ∀ re, env.safetyResp ≠ some (false, re))
    (hcoh : env.cohereKeySet = true) (hgroq : env.groqKeySet = true)
    (hcomp : env.completionResult = some ans) :
    (env.embedResult = none →
      (aiChatPost env question).httpStatus = 200 ∧
      (aiChatPost env question).contextUsed = [] ∧
      (aiChatPost env question).lowConf = true ∧
      (aiChatPost env question).confidence = none ∧
      (aiChatPost env question).retrievalDebug = some ChatDebug.rateLimitFallback) ∧
    (∀ qv, env.embedResult = some qv → env.vectorSearchRaises = true →
      (aiChatPost env question).httpStatus = 200 ∧
      (aiChatPost env question).contextUsed = [] ∧
      (aiChatPost env question).lowConf = true ∧
      (aiChatPost env question).confidence = none ∧
      (aiChatPost env question).retrievalDebug = some ChatDebug.dbErrorFallback) ∧
    (∀ qv, env.embedResult = some qv → env.vectorSearchRaises = false →
      ((smartRetrieve env.store env.cosineDistance qv 5 (some 16) [] none).2.status =
          RetStatus.low_confidence ∨
        (smartRetrieve env.store env.cosineDistance qv 5 (some 16) [] none).2.status =
          RetStatus.very_low_confidence) →
      (aiChatPost env question).lowConf = true ∧
      (aiChatPost env question).contextUsed =
        (smartRetrieve env.store env.cosineDistance qv 5 (some 16) [] none).1) := by
  have hstep : ∀ chunks debug lc,
      (chatFinish env chunks debug lc
        ([ProviderCall.safetyValidate] ++ [ProviderCall.cohereEmbed])).httpStatus = 200 ∧
      (chatFinish env chunks debug lc
        ([ProviderCall.safetyValidate] ++ [ProviderCall.cohereEmbed])).answer = some ans ∧
      (chatFinish env chunks debug lc
        ([ProviderCall.safetyValidate] ++ [ProviderCall.cohereEmbed])).contextUsed = chunks ∧
      (chatFinish env chunks debug lc
        ([ProviderCall.safetyValidate] ++ [ProviderCall.cohereEmbed])).lowConf = lc ∧
      (chatFinish env chunks debug lc
        ([ProviderCall.safetyValidate] ++ [ProviderCall.cohereEmbed])).confidence =
        chatDebugMaxScore debug ∧
      (chatFinish env chunks debug lc
        ([ProviderCall.safetyValidate] ++ [ProviderCall.cohereEmbed])).retrievalDebug =
        some debug :=
    fun chunks debug lc => chatFinish_success env chunks debug lc _ ans hcomp
  have hbody : aiChatPost env question =
      (match env.safetyResp with
        | some (false, reason) =>
            { httpStatus := 200, errorMsg := none,
              answer := some ("SECURITY ALERT: Request blocked. ".toList ++ reason),
              contextUsed := [], confidence := some 0,
              retrievalDebug := some ChatDebug.blocked, followUpQuestions := [],
              lowConf := false, calls := [ProviderCall.safetyValidate] }
        | _ =>
          if env.cohereKeySet = false then
            { httpStatus := 500, errorMsg := some "Cohere API key not configured".toList,
              answer := none, contextUsed := [], confidence := none, retrievalDebug := none,
              followUpQuestions := [], lowConf := false,
              calls := [ProviderCall.safetyValidate] }
          else if env.groqKeySet = false then
            { httpStatus := 500, errorMsg := some "Groq API key not configured".toList,
              answer := none, contextUsed := [], confidence := none, retrievalDebug := none,
              followUpQuestions := [], lowConf := false,
              calls := [ProviderCall.safetyValidate] }
          else
            match env.embedResult with
            | none =>
                chatFinish env [] ChatDebug.rateLimitFallback true
                  ([ProviderCall.safetyValidate] ++ [ProviderCall.cohereEmbed])
            | some queryVector =>
              if env.vectorSearchRaises then
                chatFinish env [] ChatDebug.dbErrorFallback true
                  ([ProviderCall.safetyValidate] ++ [ProviderCall.cohereEmbed])
              else
                let r := smartRetrieve env.store env.cosineDistance queryVector 5
                  (some 16) [] none
                if r.2.status = RetStatus.no_results then
                  { httpStatus := 200, errorMsg := none,
                    answer := some "En löytänyt mitään tähän kysymykseen nykyisestä tietokannasta.".toList,
                    contextUsed := [], confidence := some 0,
                    retrievalDebug := some (ChatDebug.retrieval r.2),
                    followUpQuestions := (generateFollowUpQuestions env []).1,
                    lowConf := false,
                    calls := [ProviderCall.safetyValidate] ++ [ProviderCall.cohereEmbed] }
                else
                  chatFinish env r.1 (ChatDebug.retrieval r.2)
                    (decide (r.2.status = RetStatus.low_confidence ∨
                      r.2.status = RetStatus.very_low_confidence))
                    ([ProviderCall.safetyValidate] ++ [ProviderCall.cohereEmbed])) := by
    unfold aiChatPost
    rw [if_neg hq]
  refine ⟨?_, ?_, ?_⟩
  · intro hemb
    rw [hbody]
    rcases henv : env.safetyResp with _ | ⟨b, re⟩
    · simp only [henv, hcoh, hgroq, hemb]
      simp only [Bool.true_eq_false, if_false]
      obtain ⟨h1, h2, h3, h4, h5, h6⟩ := hstep [] ChatDebug.rateLimitFallback true
      exact ⟨h1, h3, h4, h5, h6⟩
    · cases b with
      | false => exact absurd henv (hsafe re)
      | true =>
          simp only [henv, hcoh, hgroq, hemb]
          simp only [Bool.true_eq_false, if_false]
          obtain ⟨h1, h2, h3, h4, h5, h6⟩ := hstep [] ChatDebug.rateLimitFallback true
          exact ⟨h1, h3, h4, h5, h6⟩
  · intro qv hemb hraise
    rw [hbody]
    rcases henv : env.safetyResp with _ | ⟨b, re⟩
    · simp only [henv, hcoh, hgroq, hemb, hraise]
      simp only [Bool.true_eq_false, if_false, if_true]
      obtain ⟨h1, h2, h3, h4, h5, h6⟩ := hstep [] ChatDebug.dbErrorFallback true
      exact ⟨h1, h3, h4, h5, h6⟩
    · cases b with
      | false => exact absurd henv (hsafe re)
      | true =>
          simp only [henv, hcoh, hgroq, hemb, hraise]
          simp only [Bool.true_eq_false, if_false, if_true]
          obtain ⟨h1, h2, h3, h4, h5, h6⟩ := hstep [] ChatDebug.dbErrorFallback true
          exact ⟨h1, h3, h4, h5, h6⟩
  · intro qv hemb hraise hlow
    have hnr : ¬ ((smartRetrieve env.store env.cosineDistance qv 5 (some 16) [] none).2.status =
        RetStatus.no_results) := by
      rcases hlow with h | h <;> rw [h] <;> intro hcon <;> cases hcon
    have hdec : decide ((smartRetrieve env.store env.cosineDistance qv 5 (some 16) [] none).2.status =
        RetStatus.low_confidence ∨
        (smartRetrieve env.store env.cosineDistance qv 5 (some 16) [] none).2.status =
        RetStatus.very_low_confidence) = true := decide_eq_true hlow
    rw [hbody]
    rcases henv : env.safetyResp with _ | ⟨b, re⟩
    · simp only [henv, hcoh, hgroq, hemb, hraise]
      simp only [Bool.true_eq_false, Bool.false_eq_true, if_false]
      rw [if_neg hnr, hdec]
      obtain ⟨h1, h2, h3, h4, h5, h6⟩ := hstep
        (smartRetrieve env.store env.cosineDistance qv 5 (some 16) [] none).1
        (ChatDebug.retrieval (smartRetrieve env.store env.cosineDistance qv 5 (some 16) [] none).2)
        true
      exact ⟨h4, h3⟩
    · cases b with
      | false => exact absurd henv (hsafe re)
      | true =>
          simp only [henv, hcoh, hgroq, hemb, hraise]
          simp only [Bool.true_eq_false, Bool.false_eq_true, if_false]
          rw [if_neg hnr, hdec]
          obtain ⟨h1, h2, h3, h4, h5, h6⟩ := hstep
            (smartRetrieve env.store env.cosineDistance qv 5 (some 16) [] none).1
            (ChatDebug.retrieval (smartRetrieve env.store env.cosineDistance qv 5 (some 16) [] none).2)
            true
          exact ⟨h4, h3⟩

/-- C1 witness: the amended theorem at the degraded concrete environment. -/
theorem aiChat_degraded_no_keyword_fallback_witness :
    (aiChatPost envDegraded "embeddings".toList).contextUsed = [] ∧
    (aiChatPost envDegraded "embeddings".toList).lowConf = true :=
  let h := (aiChat_degraded_no_keyword_fallback envDegraded "embeddings".toList
    "answer".toList (by decide) (by intro re h; cases h) rfl rfl rfl).1 rfl
  ⟨h.2.1, h.2.2.1⟩

/-- C7: a blank or whitespace-only question is rejected with a 400
validation error before any provider interaction: no safety-validation
call, no embedding call, no completion call. -/
theorem aiChat_blank_validation (env : ChatEnv) (question : List Char)
    (hq : pyStrip question = []) :
    (aiChatPost env question).httpStatus = 400 ∧
    (aiChatPost env question).calls = [] ∧
    (aiChatPost env question).answer = none := by
  unfold aiChatPost
  rw [if_pos hq]
  exact ⟨rfl, rfl, rfl⟩

/-- C7 witness: the whitespace-only question "   " in a healthy
environment. -/
theorem aiChat_blank_validation_witness :
    (aiChatPost envIdle "   ".toList).httpStatus = 400 ∧
    (aiChatPost envIdle "   ".toList).calls = [] ∧
    (aiChatPost envIdle "   ".toList).answer = none :=
  aiChat_blank_validation envIdle "   ".toList (by decide)

/-- C2 counterexample.  The claim quantifies over every requested `top_k`;
with `top_k = 0` and a store holding one matching chunk, the success branch
takes `scored[:0] = []`, so `smart_retrieve` returns an empty candidate
list even though a chunk matched the filters. -/
theorem smartRetrieve_c2_counterexample :
    applyFilters [sampleChunk] [] none ≠ [] ∧
    (smartRetrieve [sampleChunk] (fun _ _ => 0) [] 0 none [] none).1 = [] := by
  constructor
  · decide
  · rfl

/-- C2 (amended): for every query vector, every requested `top_k ≥ 1`, a
default or positive `candidate_k`, and optional filters, if at least one
`KnowledgeChunk` matches the filters then `smart_retrieve` returns a
non-empty candidate list: low similarity scores never suppress all
results. -/
theorem smartRetrieve_nonempty (store : List KnowledgeChunk)
    (cosD : List ℚ → List ℚ → ℚ) (qv : List ℚ) (topK : Nat) (ck : Option Nat)
    (sts : List SourceType) (did : Option Nat)
    (hne : applyFilters store sts did ≠ [])
    (htop : 1 ≤ topK) (hck : ∀ k, ck = some k → 1 ≤ k) :
    (smartRetrieve store cosD qv topK ck sts did).1 ≠ [] := by
  obtain ⟨rl, hrl, hlen, -⟩ :=
    smartRetrieve_success store cosD qv topK ck sts did hne hck
  intro h
  rw [h] at hlen
  simp only [List.length_nil] at hlen
  omega

/-- C2 witness: a one-chunk store with an arbitrary similarity yields one
candidate at `top_k = 5`. -/
theorem smartRetrieve_nonempty_witness :
    applyFilters [sampleChunk] [] none ≠ [] ∧
    (smartRetrieve [sampleChunk] (fun _ _ => 0) [] 5 none [] none).1 ≠ [] :=
  ⟨by decide,
    smartRetrieve_nonempty [sampleChunk] (fun _ _ => 0) [] 5 none [] none
      (by decide) (by decide) (by intro k h; cases h)⟩

/-- C6 counterexample.  The claim says diagnostics are populated with all of
`max_score`, `avg_score`, `total_available`, `returned` on every path
including the zero-result path; on an empty store the `no_results` dict
omits all four keys. -/
theorem smartRetrieve_c6_counterexample :
    (smartRetrieve [] (fun _ _ => 0) [] 5 none [] none).2.status = RetStatus.no_results ∧
    (smartRetrieve [] (fun _ _ => 0) [] 5 none [] none).2.max_score = none ∧
    (smartRetrieve [] (fun _ _ => 0) [] 5 none [] none).2.avg_score = none ∧
    (smartRetrieve [] (fun _ _ => 0) [] 5 none [] none).2.total_available = none ∧
    (smartRetrieve [] (fun _ _ => 0) [] 5 none [] none).2.returned = none := by
  exact ⟨rfl, rfl, rfl, rfl, rfl⟩

/-- C6 (amended): the diagnostics dict always carries `status`, `scores`,
`top_k`, `candidate_k` and `filters`; `max_score`, `avg_score`,
`total_available` and `returned` are additionally populated on every path
that reaches ranking (non-empty filtered store, positive candidate pool),
but are omitted from the two zero-result dicts. -/
theorem smartRetrieve_diagnostics (store : List KnowledgeChunk)
    (cosD : List ℚ → List ℚ → ℚ) (qv : List ℚ) (topK : Nat) (ck : Option Nat)
    (sts : List SourceType) (did : Option Nat)
    (hne : applyFilters store sts did ≠ [])
    (hck : ∀ k, ck = some k → 1 ≤ k) :
    (smartRetrieve store cosD qv topK ck sts did).2.max_score.isSome = true ∧
    (smartRetrieve store cosD qv topK ck sts did).2.avg_score.isSome = true ∧
    (smartRetrieve store cosD qv topK ck sts did).2.total_available =
      some (applyFilters store sts did).length ∧
    (smartRetrieve store cosD qv topK ck sts did).2.returned =
      some (smartRetrieve store cosD qv topK ck sts did).1.length ∧
    (smartRetrieve store cosD qv topK ck sts did).2.candidate_k.isSome = true := by
  obtain ⟨rl, -, -, h1, h2, h3, h4, h5⟩ :=
    smartRetrieve_success store cosD qv topK ck sts did hne hck
  exact ⟨h1, h2, h3, h4, h5⟩

/-- C6 witness: the amended diagnostics theorem at a concrete one-chunk
store. -/
theorem smartRetrieve_diagnostics_witness :
    applyFilters [sampleChunk] [] none ≠ [] ∧
    (smartRetrieve [sampleChunk] (fun _ _ => 0) [] 5 none [] none).2.max_score.isSome = true :=
  ⟨by decide,
    (smartRetrieve_diagnostics [sampleChunk] (fun _ _ => 0) [] 5 none [] none
      (by decide) (by intro k h; cases h)).1⟩

/-- C4 counterexample.  The claim says every character of the input text
appears in at least one returned segment.  On `chunk_text("ab  cd", 4, 0)`
the source strips each window, so the two interior space characters (inside
the trimmed text, not at its boundary) appear in no returned segment, and
the overlap-discarding reconstruction gives "abcd", not "ab  cd". -/
theorem chunkText_c4_counterexample :
    chunkText 10 "ab  cd".toList 4 0 = some ["ab".toList, "cd".toList] ∧
    ' ' ∈ "ab  cd".toList ∧
    ' ' ∉ "ab".toList ∧ ' ' ∉ "cd".toList := by
  decide

/-- C4 (amended): whenever `chunk_text(text, max_chars, overlap)` returns
(with any fuel bound on its loop), every non-whitespace character of the
stripped input text appears in at least one returned segment; only
whitespace at window boundaries can be lost. -/
theorem chunkText_covers_nonspace (fuel : Nat) (text : List Char)
    (maxChars overlap : Nat) (segs : List (List Char))
    (h : chunkText fuel text maxChars overlap = some segs) :
    ∀ c ∈ pyStrip text, c.isWhitespace = false → ∃ s ∈ segs, c ∈ s := by
  intro c hc hw
  unfold chunkText at h
  by_cases h0 : pyStrip text = []
  · rw [h0] at hc; cases hc
  · rw [if_neg h0] at h
    by_cases h1 : (pyStrip text).length ≤ maxChars
    · rw [if_pos h1] at h
      have hsegs : [pyStrip text] = segs := Option.some.inj h
      exact ⟨pyStrip text, by rw [← hsegs]; exact List.mem_singleton.mpr rfl, hc⟩
    · rw [if_neg h1] at h
      have := (chunkLoop_covers (pyStrip text) maxChars
        (min overlap (maxChars / 2)) fuel 0 [] segs h).2
      exact this c (by rw [List.drop_zero]; exact hc) hw

/-- C4 witness: the amended coverage theorem applied to the concrete run
`chunk_text("ab  cd", 4, 0)` and its non-whitespace character `c`. -/
theorem chunkText_covers_nonspace_witness :
    ∃ s ∈ ["ab".toList, "cd".toList], 'c' ∈ s :=
  chunkText_covers_nonspace 10 "ab  cd".toList 4 0 ["ab".toList, "cd".toList]
    (by decide) 'c' (by decide) (by decide)

/-- C9 counterexample.  The claim says the clamped overlap guarantees
termination for every input.  With `max_chars = 0` (and any text longer
than `max_chars`, here "ab") the window never advances: the Python loop
runs forever, i.e. the fueled model returns `none` for every fuel. -/
theorem chunkText_c9_counterexample : chunkTextDiverges "ab".toList 0 200 := by
  intro fuel
  unfold chunkText
  rw [if_neg (by decide), if_neg (by decide)]
  exact chunkLoop_fixpoint "ab".toList (min 200 (0 / 2)) fuel 0 [] (by decide)

/-- C9 (amended): for every positive `max_chars` the clamp of `overlap` to
`max_chars / 2` guarantees forward progress, and `chunk_text` terminates:
fuel `len(text) + 1` always suffices. -/
theorem chunkText_terminates (text : List Char) (maxChars overlap : Nat)
    (hmax : 1 ≤ maxChars) :
    ∃ segs, chunkText ((pyStrip text).length + 1) text maxChars overlap = some segs := by
  unfold chunkText
  by_cases h0 : pyStrip text = []
  · rw [if_pos h0]; exact ⟨_, rfl⟩
  · rw [if_neg h0]
    by_cases h1 : (pyStrip text).length ≤ maxChars
    · rw [if_pos h1]; exact ⟨_, rfl⟩
    · rw [if_neg h1]
      apply chunkLoop_isSome _ _ _ hmax
      · have h2 : min overlap (maxChars / 2) ≤ maxChars / 2 := Nat.min_le_right _ _
        have h3 : maxChars / 2 + maxChars / 2 ≤ maxChars := by omega
        omega
      · omega

/-- C9 witness: termination at the concrete input `chunk_text("ab", 1, 200)`. -/
theorem chunkText_terminates_witness :
    (1 ≤ 1) ∧
      ∃ segs, chunkText ((pyStrip "ab".toList).length + 1) "ab".toList 1 200 = some segs :=
  ⟨by decide, chunkText_terminates "ab".toList 1 200 (by decide)⟩

/-- A RAG-themed taxonomy section ("RAG Systems") with one item, as in the
C8 scenario. -/
def ragSection : RoadmapSectionRec :=
  { id := 1, title := "RAG Systems".toList, description := [], order := 2 }

def ragItem : RoadmapItemRec :=
  { id := 1, sec := some ragSection, title := "Vector search".toList,
    description := [], order := 1, is_active := true }

/-- An agents-themed taxonomy section ("Agents + MCP") with one item. -/
def agentsSection : RoadmapSectionRec :=
  { id := 2, title := "Agents + MCP".toList, description := [], order := 3 }

def agentsItem : RoadmapItemRec :=
  { id := 2, sec := some agentsSection, title := "MCP servers".toList,
    description := [], order := 1, is_active := true }

/-- C8: the commit message "Added vector DB embeddings and chunking",
matched against a taxonomy with a "RAG Systems" section (item "Vector
search") and an "Agents + MCP" section (item "MCP servers"), resolves to
the RAG item: the "rag" section keyword selects the rag bias cluster whose
token "embedding" is a substring of the text (+25), plus the token overlap
of "vector" (+12), while the agents item scores 0. -/
theorem matchRoadmap_c8_rag_over_agents :
    matchRoadmapItemByText [ragItem, agentsItem] none
      "Added vector DB embeddings and chunking".toList [] [] = some ragItem.id ∧
    ragItem.sec = some ragSection ∧
    agentsItem.sec = some agentsSection ∧
    ragSection.title = "RAG Systems".toList ∧
    agentsSection.title = "Agents + MCP".toList := by
  refine ⟨by decide, rfl, rfl, rfl, rfl⟩

/-- C5: the batch write is atomic.  Every call either leaves the store
exactly as it was (empty batch, duplicate delivery, or an exception rolled
back by `transaction.atomic`), or appends exactly one LogEntry per parsed
event and reports that many creations. -/
theorem automation_c5_atomic (items : List RoadmapItemRec) (env : AutoEnv)
    (entries : List AutomationEvent) (deliveryId : Option (List Char))
    (st : EntryStore) :
    (createLearningEntriesFromEvents items env entries deliveryId st).2.1 = st ∨
    ∃ rows res,
      (createLearningEntriesFromEvents items env entries deliveryId st).2.1.rows =
        st.rows ++ rows ∧
      rows.length = entries.length ∧
      (createLearningEntriesFromEvents items env entries deliveryId st).1 =
        Except.ok res ∧
      res.created = entries.length := by
  unfold createLearningEntriesFromEvents
  by_cases he : entries = []
  · rw [if_pos he]
    left
    rfl
  · rw [if_neg he]
    simp only []
    set marker := (match deliveryId with
      | some d => if d = [] then none else some ("GitHub Delivery ID: ".toList ++ d)
      | none => none) with hmarker
    set dup := (match marker with
      | some m => st.rows.any (fun r => pyIn (pyLower m) (pyLower r.content))
      | none => false) with hdupdef
    by_cases hdup : dup = true
    · rw [if_pos hdup]
      left
      rfl
    · rw [if_neg hdup]
      rcases hE : runEvents items env (entries.flatMap (fun e => e.messages))
          marker entries 0 st [] none 0 with ⟨res0, c2⟩
      cases res0 with
      | error e2 =>
          left
          rfl
      | ok triple =>
          rcases triple with ⟨st2, ids2, r2⟩
          right
          obtain ⟨rows, hrows, hlen, hidslen, -⟩ :=
            runEvents_ok_shape items env _ _ entries 0 st [] none 0 st2 ids2 r2 c2 hE
          refine ⟨rows, _, hrows, hlen, rfl, ?_⟩
          simp only [List.length_nil] at hidslen
          simpa using hidslen

/-- C3: submitting the same batch with the same non-empty delivery id twice
creates entries only on the first submission.  The marker derived from the
delivery id is embedded in every created entry's content, so the second
call detects it by case-insensitive substring search, creates nothing,
leaves the store untouched, makes no Groq call, and returns `created = 0`
with `skipped` equal to the number of parsed sub-events. -/
theorem automation_c3_idempotent (items : List RoadmapItemRec) (env1 env2 : AutoEnv)
    (entries : List AutomationEvent) (d : List Char) (st : EntryStore)
    (hd : d ≠ []) (hne : entries ≠ [])
    (hfail : ∀ j, env1.failAt j = false)
    (hfresh : ∀ r ∈ st.rows,
      pyIn (pyLower ("GitHub Delivery ID: ".toList ++ d)) (pyLower r.content) = false) :
    ∃ res,
      (createLearningEntriesFromEvents items env1 entries (some d) st).1 =
        Except.ok res ∧
      res.created = entries.length ∧ res.skipped = 0 ∧
      (createLearningEntriesFromEvents items env2 entries (some d)
          (createLearningEntriesFromEvents items env1 entries (some d) st).2.1).1 =
        Except.ok { created := 0, skipped := entries.length,
                    reason := some "duplicate_delivery".toList,
                    roadmap_item_id := none, entry_ids := none } ∧
      (createLearningEntriesFromEvents items env2 entries (some d)
          (createLearningEntriesFromEvents items env1 entries (some d) st).2.1).2.1 =
        (createLearningEntriesFromEvents items env1 entries (some d) st).2.1 ∧
      (createLearningEntriesFromEvents items env2 entries (some d)
          (createLearningEntriesFromEvents items env1 entries (some d) st).2.1).2.2 = 0 := by
  obtain ⟨st2, ids2, r2, c2, hrun⟩ := runEvents_no_fail items env1
    (entries.flatMap (fun e => e.messages))
    (some ("GitHub Delivery ID: ".toList ++ d)) hfail entries 0 st [] none 0
  obtain ⟨rows, hrows, hlen, hidslen, hmark⟩ :=
    runEvents_ok_shape items env1 _ _ entries 0 st [] none 0 st2 ids2 r2 c2 hrun
  have hdupf : (st.rows.any (fun r =>
      pyIn (pyLower ("GitHub Delivery ID: ".toList ++ d)) (pyLower r.content))) = false := by
    rw [List.any_eq_false]
    intro r hr
    rw [hfresh r hr]
    exact Bool.false_ne_true
  have hfirst : createLearningEntriesFromEvents items env1 entries (some d) st =
      (Except.ok { created := ids2.length, skipped := 0, reason := none,
                   roadmap_item_id := some r2, entry_ids := some ids2 }, st2, c2) := by
    simp only [createLearningEntriesFromEvents]
    rw [if_neg hne, if_neg hd]
    simp only []
    rw [if_neg (by rw [hdupf]; exact Bool.false_ne_true)]
    rw [hrun]
  have hrows_ne : rows ≠ [] := by
    intro h
    rw [h] at hlen
    exact hne (List.length_eq_zero.mp hlen.symm)
  have hdup2 : (st2.rows.any (fun r =>
      pyIn (pyLower ("GitHub Delivery ID: ".toList ++ d)) (pyLower r.content))) = true := by
    rw [List.any_eq_true]
    rcases rows with _ | ⟨row0, rest⟩
    · exact absurd rfl hrows_ne
    · exact ⟨row0, by rw [hrows]; exact List.mem_append_right _ (List.mem_cons_self _ _),
        hmark _ row0 rfl (List.mem_cons_self _ _)⟩
  have hsecond : createLearningEntriesFromEvents items env2 entries (some d) st2 =
      (Except.ok { created := 0, skipped := entries.length,
                   reason := some "duplicate_delivery".toList,
                   roadmap_item_id := none, entry_ids := none }, st2, 0) := by
    simp only [createLearningEntriesFromEvents]
    rw [if_neg hne, if_neg hd]
    simp only []
    rw [if_pos hdup2]
  refine ⟨{ created := ids2.length, skipped := 0, reason := none,
            roadmap_item_id := some r2, entry_ids := some ids2 }, ?_, ?_, rfl, ?_, ?_, ?_⟩
  · rw [hfirst]
  · simp only [List.length_nil, Nat.zero_add] at hidslen
    exact hidslen
  · rw [hfirst]
    exact congrArg Prod.fst hsecond
  · rw [hfirst]
    show (createLearningEntriesFromEvents items env2 entries (some d) st2).2.1 = st2
    rw [hsecond]
  · rw [hfirst]
    show (createLearningEntriesFromEvents items env2 entries (some d) st2).2.2 = 0
    rw [hsecond]

/-- C3 witness: the idempotence theorem at a concrete one-event batch with
delivery id "d123" on an empty store. -/
theorem automation_c3_idempotent_witness :
    ∃ res,
      (createLearningEntriesFromEvents [] ⟨false, fun _ => (none, []), fun _ => false⟩
        [⟨"Added vector DB embeddings and chunking".toList,
          ["Added vector DB embeddings and chunking".toList], none, none, [], none⟩]
        (some "d123".toList) ⟨[], 1⟩).1 = Except.ok res ∧
      res.created = 1 ∧ res.skipped = 0 ∧
      (createLearningEntriesFromEvents [] ⟨false, fun _ => (none, []), fun _ => false⟩
        [⟨"Added vector DB embeddings and chunking".toList,
          ["Added vector DB embeddings and chunking".toList], none, none, [], none⟩]
        (some "d123".toList)
        (createLearningEntriesFromEvents [] ⟨false, fun _ => (none, []), fun _ => false⟩
          [⟨"Added vector DB embeddings and chunking".toList,
            ["Added vector DB embeddings and chunking".toList], none, none, [], none⟩]
          (some "d123".toList) ⟨[], 1⟩).2.1).1 =
        Except.ok { created := 0, skipped := 1,
                    reason := some "duplicate_delivery".toList,
                    roadmap_item_id := none, entry_ids := none } ∧
      (createLearningEntriesFromEvents [] ⟨false, fun _ => (none, []), fun _ => false⟩
        [⟨"Added vector DB embeddings and chunking".toList,
          ["Added vector DB embeddings and chunking".toList], none, none, [], none⟩]
        (some "d123".toList)
        (createLearningEntriesFromEvents [] ⟨false, fun _ => (none, []), fun _ => false⟩
          [⟨"Added vector DB embeddings and chunking".toList,
            ["Added vector DB embeddings and chunking".toList], none, none, [], none⟩]
          (some "d123".toList) ⟨[], 1⟩).2.1).2.1 =
        (createLearningEntriesFromEvents [] ⟨false, fun _ => (none, []), fun _ => false⟩
          [⟨"Added vector DB embeddings and chunking".toList,
            ["Added vector DB embeddings and chunking".toList], none, none, [], none⟩]
          (some "d123".toList) ⟨[], 1⟩).2.1 ∧
      (createLearningEntriesFromEvents [] ⟨false, fun _ => (none, []), fun _ => false⟩
        [⟨"Added vector DB embeddings and chunking".toList,
          ["Added vector DB embeddings and chunking".toList], none, none, [], none⟩]
        (some "d123".toList)
        (createLearningEntriesFromEvents [] ⟨false, fun _ => (none, []), fun _ => false⟩
          [⟨"Added vector DB embeddings and chunking".toList,
            ["Added vector DB embeddings and chunking".toList], none, none, [], none⟩]
          (some "d123".toList) ⟨[], 1⟩).2.1).2.2 = 0 :=
  automation_c3_idempotent [] ⟨false, fun _ => (none, []), fun _ => false⟩
    ⟨false, fun _ => (none, []), fun _ => false⟩
    [⟨"Added vector DB embeddings and chunking".toList,
      ["Added vector DB embeddings and chunking".toList], none, none, [], none⟩]
    "d123".toList ⟨[], 1⟩ (by decide) (by decide) (fun _ => rfl)
    (by intro r hr; cases hr)

/-- C10: an empty parsed-event list is a no-op: the result is
`created = 0, skipped = 0, reason = "no_entries"`, the store is unchanged,
and no Groq summarization call is made. -/
theorem automation_c10_empty_noop (items : List RoadmapItemRec) (env : AutoEnv)
    (deliveryId : Option (List Char)) (st : EntryStore) :
    createLearningEntriesFromEvents items env [] deliveryId st =
      (Except.ok { created := 0, skipped := 0, reason := some "no_entries".toList,
                   roadmap_item_id := none, entry_ids := none }, st, 0) := by
  rfl

end Portfolio
